import Mathlib

/-!
Shallow embedding of the `ln` package of treverson/ln-paywall (file
`ln/lnd.go`) together with a spec-derived model of the authorization
decision procedure.  Bytes are modelled as `Nat` values below 256 and
machine words as `Nat` reduced modulo `2 ^ 32` where the Go code relies
on 32-bit wraparound (inside SHA-256).
-/

namespace LnPaywall

/-! ### Base64 (model of Go `base64.StdEncoding.DecodeString`) -/

/-- Value of one character of the standard base64 alphabet, `none` for a
character outside it (Go: `base64.StdEncoding` decode map). -/
def b64Index (c : Char) : Option Nat :=
  if 'A' ≤ c ∧ c ≤ 'Z' then some (c.toNat - 65)
  else if 'a' ≤ c ∧ c ≤ 'z' then some (c.toNat - 97 + 26)
  else if '0' ≤ c ∧ c ≤ '9' then some (c.toNat - 48 + 52)
  else if c = '+' then some 62
  else if c = '/' then some 63
  else none

/-- Decode a newline-free base64 character stream four characters at a
time, enforcing Go's `StdEncoding` rules: the length is a multiple of
four, every character before the padding is in the alphabet, and `=`
padding may only close the final quantum (`xx==` or `xxx=`). -/
def decodeB64Chunks : List Char → Option (List Nat)
  | [] => some []
  | c1 :: c2 :: c3 :: c4 :: rest =>
    match b64Index c1, b64Index c2 with
    | some i1, some i2 =>
      if c3 = '=' then
        if c4 = '=' ∧ rest = [] then
          some [i1 * 4 + i2 / 16]
        else none
      else
        match b64Index c3 with
        | some i3 =>
          if c4 = '=' then
            if rest = [] then
              some [i1 * 4 + i2 / 16, (i2 % 16) * 16 + i3 / 4]
            else none
          else
            match b64Index c4 with
            | some i4 =>
              match decodeB64Chunks rest with
              | some bs =>
                some ((i1 * 4 + i2 / 16) :: ((i2 % 16) * 16 + i3 / 4) ::
                  ((i3 % 4) * 64 + i4) :: bs)
              | none => none
            | none => none
        | none => none
    | _, _ => none
  | _ => none

/-- Go `base64.StdEncoding.DecodeString`: the decoder skips `\r` and
`\n` and then decodes strictly; `none` models a non-nil error. -/
def decodeBase64Std (s : String) : Option (List Nat) :=
  decodeB64Chunks (s.data.filter (fun c => c ≠ '\r' ∧ c ≠ '\n'))

/-! ### SHA-256 (model of Go `crypto/sha256.Sum256`) -/

/-- Right rotation of a 32-bit word, on `Nat`. -/
def rotr32 (n x : Nat) : Nat :=
  ((x >>> n) ||| (x <<< (32 - n))) % 2 ^ 32

/-- SHA-256 message-schedule sigma-0. -/
def ssig0 (x : Nat) : Nat := (rotr32 7 x) ^^^ (rotr32 18 x) ^^^ (x >>> 3)

/-- SHA-256 message-schedule sigma-1. -/
def ssig1 (x : Nat) : Nat := (rotr32 17 x) ^^^ (rotr32 19 x) ^^^ (x >>> 10)

/-- SHA-256 compression Sigma-0. -/
def bsig0 (x : Nat) : Nat := (rotr32 2 x) ^^^ (rotr32 13 x) ^^^ (rotr32 22 x)

/-- SHA-256 compression Sigma-1. -/
def bsig1 (x : Nat) : Nat := (rotr32 6 x) ^^^ (rotr32 11 x) ^^^ (rotr32 25 x)

/-- The 64 SHA-256 round constants (FIPS 180-4, in decimal). -/
def sha256K : List Nat :=
  [1116352408, 1899447441, 3049323471, 3921009573, 961987163, 1508970993,
   2453635748, 2870763221, 3624381080, 310598401, 607225278, 1426881987,
   1925078388, 2162078206, 2614888103, 3248222580, 3835390401, 4022224774,
   264347078, 604807628, 770255983, 1249150122, 1555081692, 1996064986,
   2554220882, 2821834349, 2952996808, 3210313671, 3336571891, 3584528711,
   113926993, 338241895, 666307205, 773529912, 1294757372, 1396182291,
   1695183700, 1986661051, 2177026350, 2456956037, 2730485921, 2820302411,
   3259730800, 3345764771, 3516065817, 3600352804, 4094571909, 275423344,
   430227734, 506948616, 659060556, 883997877, 958139571, 1322822218,
   1537002063, 1747873779, 1955562222, 2024104815, 2227730452, 2361852424,
   2428436474, 2756734187, 3204031479, 3329325298]

/-- SHA-256 working state: eight 32-bit words. -/
structure Hash8 where
  a : Nat
  b : Nat
  c : Nat
  d : Nat
  e : Nat
  f : Nat
  g : Nat
  h : Nat
deriving Repr, DecidableEq

/-- SHA-256 initial hash value (FIPS 180-4, in decimal). -/
def sha256H0 : Hash8 :=
  ⟨1779033703, 3144134277, 1013904242, 2773480762,
   1359893119, 2600822924, 528734635, 1541459225⟩

/-- One step of the message-schedule extension; the list keeps the most
recent word first, so positions 1, 6, 14 and 15 are `w[i-2]`, `w[i-7]`,
`w[i-15]` and `w[i-16]`. -/
def scheduleStep (w : List Nat) : List Nat :=
  ((ssig1 (w.getD 1 0) + w.getD 6 0 + ssig0 (w.getD 14 0) + w.getD 15 0)
    % 2 ^ 32) :: w

/-- Extend sixteen block words to the full 64-word schedule. -/
def schedule (first16 : List Nat) : List Nat :=
  (scheduleStep^[48] first16.reverse).reverse

/-- One compression round; the pair carries the round constant and the
schedule word. -/
def compressStep (s : Hash8) (kw : Nat × Nat) : Hash8 :=
  let ch := (s.e &&& s.f) ^^^ ((2 ^ 32 - 1 - s.e % 2 ^ 32) &&& s.g)
  let t1 := (s.h + bsig1 s.e + ch + kw.1 + kw.2) % 2 ^ 32
  let maj := (s.a &&& s.b) ^^^ (s.a &&& s.c) ^^^ (s.b &&& s.c)
  let t2 := (bsig0 s.a + maj) % 2 ^ 32
  ⟨(t1 + t2) % 2 ^ 32, s.a, s.b, s.c, (s.d + t1) % 2 ^ 32, s.e, s.f, s.g⟩

/-- Componentwise 32-bit addition of two hash states. -/
def add8 (x y : Hash8) : Hash8 :=
  ⟨(x.a + y.a) % 2 ^ 32, (x.b + y.b) % 2 ^ 32, (x.c + y.c) % 2 ^ 32,
   (x.d + y.d) % 2 ^ 32, (x.e + y.e) % 2 ^ 32, (x.f + y.f) % 2 ^ 32,
   (x.g + y.g) % 2 ^ 32, (x.h + y.h) % 2 ^ 32⟩

/-- Group a byte list into big-endian 32-bit words. -/
def toWords : List Nat → List Nat
  | b0 :: b1 :: b2 :: b3 :: rest =>
    (b0 * 2 ^ 24 + b1 * 2 ^ 16 + b2 * 2 ^ 8 + b3) :: toWords rest
  | _ => []

/-- Compress one 64-byte block into the running hash state. -/
def compressBlock (s : Hash8) (block : List Nat) : Hash8 :=
  add8 s ((sha256K.zip (schedule (toWords block))).foldl compressStep s)

/-- Fold the compression function over consecutive 64-byte blocks; the
fuel argument only bounds the recursion and any fuel of at least the
list length computes the whole message. -/
def processBlocksFuel : Nat → Hash8 → List Nat → Hash8
  | 0, s, _ => s
  | _ + 1, s, [] => s
  | fuel + 1, s, x :: xs =>
    processBlocksFuel fuel (compressBlock s ((x :: xs).take 64)) (xs.drop 63)

/-- Fold the compression function over consecutive 64-byte blocks. -/
def processBlocks (s : Hash8) (l : List Nat) : Hash8 :=
  processBlocksFuel l.length s l

/-- SHA-256 padding: append `0x80`, zeros, and the 64-bit big-endian
bit length, reaching a multiple of 64 bytes. -/
def sha256Pad (msg : List Nat) : List Nat :=
  let bitLen := msg.length * 8
  msg ++ 0x80 :: List.replicate ((119 - msg.length % 64) % 64) 0 ++
    [bitLen / 2 ^ 56 % 256, bitLen / 2 ^ 48 % 256, bitLen / 2 ^ 40 % 256,
     bitLen / 2 ^ 32 % 256, bitLen / 2 ^ 24 % 256, bitLen / 2 ^ 16 % 256,
     bitLen / 2 ^ 8 % 256, bitLen % 256]

/-- Serialize one 32-bit word to four big-endian bytes. -/
def word2bytes (x : Nat) : List Nat :=
  [x / 2 ^ 24 % 256, x / 2 ^ 16 % 256, x / 2 ^ 8 % 256, x % 256]

/-- Go `crypto/sha256.Sum256`: the full SHA-256 digest of a byte list,
as its 32 bytes. -/
def sha256 (msg : List Nat) : List Nat :=
  let s := processBlocks sha256H0 (sha256Pad msg)
  word2bytes s.a ++ word2bytes s.b ++ word2bytes s.c ++ word2bytes s.d ++
    word2bytes s.e ++ word2bytes s.f ++ word2bytes s.g ++ word2bytes s.h

/-! ### The remote lnd node (the `lnrpc.LightningClient` collaborator)

`lnd.go` talks to a remote lnd node through two RPCs, `AddInvoice` and
`LookupInvoice`.  The node is external to the repository, so it is
modelled as an explicit state: a list of created invoices plus failure
flags for the two RPCs, and generators for the node-chosen payment
request and payment hash of a freshly created invoice. -/

/-- An invoice as held by the remote node (the fields of
`lnrpc.Invoice` that `lnd.go` reads or writes). -/
structure Invoice where
  memo : String
  value : Int
  settled : Bool
  paymentRequest : String
  rHash : List Nat
deriving Repr, DecidableEq

/-- Error kinds of a failed RPC, as distinguished by gRPC status:
`notFound` when the node has no invoice for the hash, `unavailable` for
a transport or authentication failure. -/
inductive GrpcError where
  | notFound : GrpcError
  | unavailable : GrpcError
deriving Repr, DecidableEq

/-- State of the remote lnd node. -/
structure LndNode where
  invoices : List Invoice
  addFails : Bool
  lookupFails : Bool
  newPaymentRequest : Nat → String
  newRHash : Nat → List Nat

/-- Response of the `AddInvoice` RPC (the field `lnd.go` reads via
`GetPaymentRequest`). -/
structure AddInvoiceResponse where
  paymentRequest : String
deriving Repr, DecidableEq

/-- The `AddInvoice` RPC: unless the transport fails, the node appends
a fresh unsettled invoice carrying the requested memo and value and
answers with its payment request. -/
def AddInvoice (n : LndNode) (memo : String) (value : Int) :
    LndNode × Except GrpcError AddInvoiceResponse :=
  if n.addFails then (n, .error .unavailable)
  else
    let idx := n.invoices.length
    let created : Invoice :=
      { memo := memo, value := value, settled := false,
        paymentRequest := n.newPaymentRequest idx, rHash := n.newRHash idx }
    ({ n with invoices := n.invoices ++ [created] },
     .ok ⟨created.paymentRequest⟩)

/-- The `LookupInvoice` RPC: unless the transport fails, the node
returns the invoice whose payment hash is `rHash`, or a not-found
error. -/
def LookupInvoice (n : LndNode) (rHash : List Nat) :
    Except GrpcError Invoice :=
  if n.lookupFails then .error .unavailable
  else
    match n.invoices.find? (fun inv => inv.rHash = rHash) with
    | some inv => .ok inv
    | none => .error .notFound

/-! ### `LNDclient` and its two methods (`ln/lnd.go`) -/

/-- Struct `LNDclient` (lnd.go line 20): its three fields hold the gRPC client
handle, the outgoing context and the connection.  They are opaque
handles here; what matters for the claims is whether a call changes
them. -/
structure LNDclient where
  lndClient : Nat
  ctx : Nat
  conn : Nat
deriving Repr, DecidableEq

/-- The error returned by `CheckInvoice`: either the
`base64.CorruptInputError` from decoding, or the gRPC error from
`LookupInvoice`, passed through unchanged. -/
inductive CheckError where
  | corruptInput : CheckError
  | grpc : GrpcError → CheckError
deriving Repr, DecidableEq

/-- A call issued to the remote node, recorded so that theorems can
speak about which RPCs a method performs. -/
inductive RemoteCall where
  | addInvoice : String → Int → RemoteCall
  | lookupInvoice : List Nat → RemoteCall
deriving Repr, DecidableEq

/-- Result of `GenerateInvoice`: the client value after the call, the
node state after the call, the returned string and error, and the RPCs
issued. -/
structure GenResult where
  client : LNDclient
  node : LndNode
  paymentRequest : String
  err : Option GrpcError
  calls : List RemoteCall

/-- Result of `CheckInvoice`: the client value after the call, the
returned boolean and error, and the RPCs issued (`LookupInvoice` does
not change the node state). -/
structure CheckResult where
  client : LNDclient
  settled : Bool
  err : Option CheckError
  calls : List RemoteCall

/-- Method `LNDclient.GenerateInvoice` (lnd.go lines 27-40): build an
`lnrpc.Invoice` from memo and amount, send it via `AddInvoice`, and
return the payment request of the response, or the error. -/
def GenerateInvoice (c : LNDclient) (n : LndNode) (amount : Int)
    (memo : String) : GenResult :=
  let sent := AddInvoice n memo amount
  match sent.2 with
  | .error e =>
    { client := c, node := sent.1, paymentRequest := "", err := some e,
      calls := [.addInvoice memo amount] }
  | .ok res =>
    { client := c, node := sent.1, paymentRequest := res.paymentRequest,
      err := none, calls := [.addInvoice memo amount] }

/-- Method `LNDclient.CheckInvoice` (lnd.go lines 46-73): base64-decode the
preimage (returning the decode error on failure, before anything else),
hash it with SHA-256, look up the invoice for that hash (returning the
RPC error on failure), and return whether the invoice is settled. -/
def CheckInvoice (c : LNDclient) (n : LndNode) (preimage : String) :
    CheckResult :=
  match decodeBase64Std preimage with
  | none =>
    { client := c, settled := false, err := some .corruptInput, calls := [] }
  | some decodedPreimage =>
    let hashSlice := sha256 decodedPreimage
    match LookupInvoice n hashSlice with
    | .error e =>
      { client := c, settled := false, err := some (.grpc e),
        calls := [.lookupInvoice hashSlice] }
    | .ok invoice =>
      if !invoice.settled then
        { client := c, settled := false, err := none,
          calls := [.lookupInvoice hashSlice] }
      else
        { client := c, settled := true, err := none,
          calls := [.lookupInvoice hashSlice] }

/-! ### `LNDoptions` (lnd.go lines 113-145) -/

/-- Connection options for the lnd node (lnd.go line 113). -/
structure LNDoptions where
  Address : String
  CertFile : String
  MacaroonFile : String
deriving Repr, DecidableEq

/-- Variable `DefaultLNDoptions` (lnd.go lines 126-130). -/
def DefaultLNDoptions : LNDoptions :=
  { Address := "localhost:10009", CertFile := "tls.cert",
    MacaroonFile := "invoice.macaroon" }

/-- Function `assignDefaultValues` (lnd.go lines 132-145): each empty field is
replaced by the corresponding `DefaultLNDoptions` field. -/
def assignDefaultValues (lndOptions : LNDoptions) : LNDoptions :=
  let o1 := if lndOptions.Address = "" then
    { lndOptions with Address := DefaultLNDoptions.Address } else lndOptions
  let o2 := if o1.CertFile = "" then
    { o1 with CertFile := DefaultLNDoptions.CertFile } else o1
  if o2.MacaroonFile = "" then
    { o2 with MacaroonFile := DefaultLNDoptions.MacaroonFile } else o2

/-! ### Authorization decision procedure (spec section 4.3)

The orchestrator lives in the repository's `wall` package, which is not
among the provided sources; only its changelog is.  It is therefore
modelled from the spec. -/

/-- Modelled from the spec: the caller-fault rejection reasons of the
authorization decision procedure (spec sections 4.3 and 7); the `wall`
package holding the orchestrator is missing from the sources. -/
inductive Reason where
  | malformedProof : Reason
  | alreadyUsed : Reason
  | unknownCharge : Reason
  | notSettled : Reason
deriving Repr, DecidableEq

/-- Modelled from the spec: the terminal outcomes of the authorization
decision procedure (spec section 4.3); the `wall` package holding the
orchestrator is missing from the sources. -/
inductive Outcome where
  | challengeRequired : String → Outcome
  | rejected : Reason → Outcome
  | serviceError : Outcome
  | authorized : Outcome
deriving Repr, DecidableEq

/-- Modelled from the spec: the replay-prevention storage capability
(spec section 4.2), a set of used keys plus a backend-failure flag; the
concrete storage backends are missing from the sources. -/
structure Storage where
  used : List (List Nat)
  fails : Bool

/-- Modelled from the spec: a call to one of the two injected
capabilities, recorded so that theorems can speak about which
capability the orchestrator contacts and in which order. -/
inductive CapCall where
  | issueCharge : Int → String → CapCall
  | wasUsed : List Nat → CapCall
  | markUsed : List Nat → CapCall
  | isSettled : List Nat → CapCall
deriving Repr, DecidableEq

/-- Result of the authorization decision procedure: the outcome, the
storage and node states after the call, and the capability calls made,
in order. -/
structure AuthResult where
  outcome : Outcome
  storage : Storage
  node : LndNode
  calls : List CapCall

/-- Modelled from the spec: the authorization decision procedure of
spec section 4.3 (the `wall` package holding the orchestrator is
missing from the sources).  Step 1 issues a charge when no proof is
present; step 2 decodes the proof and derives the key; step 3 is the
fast replay check, performed before the verification capability is
contacted; step 4 checks settlement through `CheckInvoice`; step 5
marks the key used and authorizes. -/
def authorize (c : LNDclient) (n : LndNode) (st : Storage) (amount : Int)
    (memo : String) (proof : Option String) : AuthResult :=
  match proof with
  | none =>
    let r := GenerateInvoice c n amount memo
    match r.err with
    | some _ =>
      { outcome := .serviceError, storage := st, node := r.node,
        calls := [.issueCharge amount memo] }
    | none =>
      { outcome := .challengeRequired r.paymentRequest, storage := st,
        node := r.node, calls := [.issueCharge amount memo] }
  | some p =>
    match decodeBase64Std p with
    | none =>
      { outcome := .rejected .malformedProof, storage := st, node := n,
        calls := [] }
    | some bs =>
      let key := sha256 bs
      if st.fails then
        { outcome := .serviceError, storage := st, node := n,
          calls := [.wasUsed key] }
      else if key ∈ st.used then
        { outcome := .rejected .alreadyUsed, storage := st, node := n,
          calls := [.wasUsed key] }
      else
        let chk := CheckInvoice c n p
        match chk.err with
        | some .corruptInput =>
          { outcome := .rejected .malformedProof, storage := st, node := n,
            calls := [.wasUsed key, .isSettled key] }
        | some (.grpc .notFound) =>
          { outcome := .rejected .unknownCharge, storage := st, node := n,
            calls := [.wasUsed key, .isSettled key] }
        | some (.grpc .unavailable) =>
          { outcome := .serviceError, storage := st, node := n,
            calls := [.wasUsed key, .isSettled key] }
        | none =>
          if chk.settled then
            { outcome := .authorized,
              storage := { st with used := key :: st.used }, node := n,
              calls := [.wasUsed key, .isSettled key, .markUsed key] }
          else
            { outcome := .rejected .notSettled, storage := st, node := n,
              calls := [.wasUsed key, .isSettled key] }

/-! ### Helper lemmas and concrete instances -/

/-- Helper: a SHA-256 digest always has exactly 32 bytes. -/
lemma sha256_length (msg : List Nat) : (sha256 msg).length = 32 := by
  simp [sha256, word2bytes]

/-- Helper: when decoding succeeds, `CheckInvoice` issues exactly one
remote call, the invoice lookup for the SHA-256 digest of the decoded
preimage, whatever the node answers. -/
lemma checkInvoice_calls_of_decode (c : LNDclient) (n : LndNode)
    (preimage : String) (bs : List Nat)
    (hdec : decodeBase64Std preimage = some bs) :
    (CheckInvoice c n preimage).calls = [.lookupInvoice (sha256 bs)] := by
  simp only [CheckInvoice, hdec]
  cases hl : LookupInvoice n (sha256 bs) with
  | error e => simp
  | ok invoice => cases hs : invoice.settled <;> simp [hs]

/-- A concrete client value for witnesses. -/
def demoClient : LNDclient := ⟨0, 0, 0⟩

/-- A concrete healthy node with no invoices. -/
def demoNode : LndNode :=
  { invoices := [], addFails := false, lookupFails := false,
    newPaymentRequest := fun i => "payment-request-" ++ toString i,
    newRHash := fun i => [i] }

/-- A concrete healthy node holding one unsettled invoice whose payment
hash is the digest of the empty preimage. -/
def demoNodeUnsettled : LndNode :=
  { demoNode with invoices :=
      [{ memo := "m", value := 1, settled := false, paymentRequest := "pr",
         rHash := sha256 [] }] }

/-- The unsettled invoice held by `demoNodeUnsettled`. -/
def demoInvoice : Invoice :=
  { memo := "m", value := 1, settled := false, paymentRequest := "pr",
    rHash := sha256 [] }

/-! ### Claims -/

/-- C1: for every preimage whose base64 decoding succeeds and whose
looked-up invoice exists but is not settled, `CheckInvoice` returns the
boolean `false` together with no error. -/
theorem checkInvoice_unsettled_false_no_error (c : LNDclient) (n : LndNode)
    (preimage : String) (bs : List Nat) (inv : Invoice)
    (hdec : decodeBase64Std preimage = some bs)
    (hlook : LookupInvoice n (sha256 bs) = .ok inv)
    (hset : inv.settled = false) :
    (CheckInvoice c n preimage).settled = false ∧
      (CheckInvoice c n preimage).err = none := by
  simp [CheckInvoice, hdec, hlook, hset]

/-- C1 witness: the empty string decodes to the empty preimage, whose
digest matches the unsettled invoice of `demoNodeUnsettled`. -/
theorem checkInvoice_unsettled_false_no_error_witness :
    (CheckInvoice demoClient demoNodeUnsettled "").settled = false ∧
      (CheckInvoice demoClient demoNodeUnsettled "").err = none :=
  checkInvoice_unsettled_false_no_error demoClient demoNodeUnsettled "" []
    demoInvoice rfl rfl rfl

/-- C2: for every preimage that is not valid standard base64,
`CheckInvoice` returns an error; that error is the decode error, a kind
distinct from every lookup error and from the error-free "not settled"
answer; and no remote call is made, so decoding is validated before any
further use of the preimage. -/
theorem checkInvoice_malformed_distinct_error (c : LNDclient) (n : LndNode)
    (preimage : String) (hdec : decodeBase64Std preimage = none) :
    (CheckInvoice c n preimage).err = some .corruptInput ∧
      (∀ e : GrpcError, (CheckError.corruptInput : CheckError) ≠ .grpc e) ∧
      some (CheckError.corruptInput) ≠ (none : Option CheckError) ∧
      (CheckInvoice c n preimage).calls = [] := by
  refine ⟨?_, ?_, ?_, ?_⟩
  · simp [CheckInvoice, hdec]
  · intro e h
    exact CheckError.noConfusion h
  · simp
  · simp [CheckInvoice, hdec]

/-- C2 witness: `"!"` is not valid base64. -/
theorem checkInvoice_malformed_distinct_error_witness :
    (CheckInvoice demoClient demoNode "!").err = some .corruptInput ∧
      (∀ e : GrpcError, (CheckError.corruptInput : CheckError) ≠ .grpc e) ∧
      some (CheckError.corruptInput) ≠ (none : Option CheckError) ∧
      (CheckInvoice demoClient demoNode "!").calls = [] :=
  checkInvoice_malformed_distinct_error demoClient demoNode "!" rfl

/-- C10: when the preimage fails base64 decoding, `CheckInvoice`
returns immediately the boolean `false` together with the decode error
and performs no remote call at all. -/
theorem checkInvoice_decode_failure_no_remote_call (c : LNDclient)
    (n : LndNode) (preimage : String)
    (hdec : decodeBase64Std preimage = none) :
    CheckInvoice c n preimage =
      { client := c, settled := false, err := some .corruptInput,
        calls := [] } := by
  simp [CheckInvoice, hdec]

/-- C10 witness: `"%"` is not valid base64. -/
theorem checkInvoice_decode_failure_no_remote_call_witness :
    CheckInvoice demoClient demoNode "%" =
      { client := demoClient, settled := false, err := some .corruptInput,
        calls := [] } :=
  checkInvoice_decode_failure_no_remote_call demoClient demoNode "%" rfl

/-- C3: for every preimage that decodes successfully, the hash used
for the invoice lookup is exactly the SHA-256 digest of the decoded
preimage bytes, a fixed 32-byte value; the lookup hash does not depend
on the client or node, so the same preimage yields the same payment
hash in every call. -/
theorem checkInvoice_hash_is_sha256_of_decoded (c : LNDclient)
    (n : LndNode) (preimage : String) (bs : List Nat)
    (hdec : decodeBase64Std preimage = some bs) :
    (CheckInvoice c n preimage).calls = [.lookupInvoice (sha256 bs)] ∧
      (sha256 bs).length = 32 ∧
      (∀ c2 : LNDclient, ∀ n2 : LndNode,
        (CheckInvoice c2 n2 preimage).calls =
          (CheckInvoice c n preimage).calls) :=
  ⟨checkInvoice_calls_of_decode c n preimage bs hdec, sha256_length bs,
   fun c2 n2 => by
    rw [checkInvoice_calls_of_decode c2 n2 preimage bs hdec,
      checkInvoice_calls_of_decode c n preimage bs hdec]⟩

/-- C3 witness: the preimage `"AAAA"` decodes to three zero bytes. -/
theorem checkInvoice_hash_is_sha256_of_decoded_witness :
    (CheckInvoice demoClient demoNode "AAAA").calls =
        [.lookupInvoice (sha256 [0, 0, 0])] ∧
      (sha256 [0, 0, 0]).length = 32 ∧
      (∀ c2 : LNDclient, ∀ n2 : LndNode,
        (CheckInvoice c2 n2 "AAAA").calls =
          (CheckInvoice demoClient demoNode "AAAA").calls) :=
  checkInvoice_hash_is_sha256_of_decoded demoClient demoNode "AAAA"
    [0, 0, 0] rfl

/-- C5: when the invoice lookup fails, `CheckInvoice` passes the
lookup error through unchanged, so a not-found failure and a
transport or authentication failure reach the caller as two distinct
error kinds, both distinct from the decode error. -/
theorem checkInvoice_distinguishes_lookup_errors (c : LNDclient)
    (n : LndNode) (preimage : String) (bs : List Nat) (e : GrpcError)
    (hdec : decodeBase64Std preimage = some bs)
    (hlook : LookupInvoice n (sha256 bs) = .error e) :
    (CheckInvoice c n preimage).err = some (.grpc e) ∧
      (CheckError.grpc .notFound : CheckError) ≠ .grpc .unavailable ∧
      (∀ e2 : GrpcError, (CheckError.grpc e2 : CheckError) ≠ .corruptInput) := by
  refine ⟨?_, by simp, fun e2 h => CheckError.noConfusion h⟩
  simp [CheckInvoice, hdec, hlook]

/-- C5 witness: `demoNode` holds no invoices, so the lookup for the
digest of the empty preimage fails with not-found. -/
theorem checkInvoice_distinguishes_lookup_errors_witness :
    (CheckInvoice demoClient demoNode "").err = some (.grpc .notFound) ∧
      (CheckError.grpc .notFound : CheckError) ≠ .grpc .unavailable ∧
      (∀ e2 : GrpcError, (CheckError.grpc e2 : CheckError) ≠ .corruptInput) :=
  checkInvoice_distinguishes_lookup_errors demoClient demoNode "" []
    GrpcError.notFound rfl rfl

/-- C4 counterexample: with amount `0` (which is `≤ 0`) and a healthy
node, `GenerateInvoice` does not fail at all — a fortiori not with an
invalid-amount error — and a charge is created on the remote system. -/
theorem generateInvoice_nonpositive_counterexample :
    (GenerateInvoice demoClient demoNode 0 "memo").err = none ∧
      (GenerateInvoice demoClient demoNode 0 "memo").node.invoices.length =
        demoNode.invoices.length + 1 := by
  constructor <;> rfl

/-- C4 amended: `GenerateInvoice` performs no amount validation: for
every amount less than or equal to zero (as for any other) it issues
the `AddInvoice` call carrying that amount to the remote system, and
when the remote call succeeds a charge holding that amount is created
there and no error is returned. -/
theorem generateInvoice_no_amount_validation (c : LNDclient) (n : LndNode)
    (amount : Int) (memo : String) (hamt : amount ≤ 0) :
    (GenerateInvoice c n amount memo).calls = [.addInvoice memo amount] ∧
      (n.addFails = false →
        (GenerateInvoice c n amount memo).err = none ∧
        (GenerateInvoice c n amount memo).node.invoices.map Invoice.value =
          n.invoices.map Invoice.value ++ [amount]) := by
  constructor
  · simp only [GenerateInvoice, AddInvoice]
    cases hf : n.addFails <;> simp [hf]
  · intro hf
    simp [GenerateInvoice, AddInvoice, hf]

/-- C4 amended witness: amount `0` at the healthy `demoNode`. -/
theorem generateInvoice_no_amount_validation_witness :
    (0 : Int) ≤ 0 ∧
      ((GenerateInvoice demoClient demoNode 0 "memo").calls =
          [.addInvoice "memo" 0] ∧
        (demoNode.addFails = false →
          (GenerateInvoice demoClient demoNode 0 "memo").err = none ∧
          (GenerateInvoice demoClient demoNode 0 "memo").node.invoices.map
              Invoice.value =
            demoNode.invoices.map Invoice.value ++ [0])) :=
  ⟨le_refl 0,
   generateInvoice_no_amount_validation demoClient demoNode 0 "memo"
     (le_refl 0)⟩

/-- C6: in the authorization decision procedure, a proof whose replay
key is already marked as used is rejected as already used, the only
capability call made is the replay check, and in particular the
verification capability (the invoice lookup) is never contacted: the
replay check is performed strictly before the settlement check. -/
theorem authorize_replay_check_before_settlement (c : LNDclient)
    (n : LndNode) (st : Storage) (amount : Int) (memo p : String)
    (bs : List Nat) (hdec : decodeBase64Std p = some bs)
    (hst : st.fails = false) (hused : sha256 bs ∈ st.used) :
    (authorize c n st amount memo (some p)).outcome =
        .rejected .alreadyUsed ∧
      (authorize c n st amount memo (some p)).calls =
        [.wasUsed (sha256 bs)] ∧
      (∀ h : List Nat,
        CapCall.isSettled h ∉ (authorize c n st amount memo (some p)).calls) := by
  refine ⟨?_, ?_, ?_⟩ <;> simp [authorize, hdec, hst, hused]

/-- A storage state in which the digest of the empty preimage is
already marked used. -/
def demoStorageUsed : Storage := ⟨[sha256 []], false⟩

/-- C6 witness: presenting the empty-preimage proof against
`demoStorageUsed`. -/
theorem authorize_replay_check_before_settlement_witness :
    (authorize demoClient demoNode demoStorageUsed 1 "m" (some "")).outcome =
        .rejected .alreadyUsed ∧
      (authorize demoClient demoNode demoStorageUsed 1 "m" (some "")).calls =
        [.wasUsed (sha256 [])] ∧
      (∀ h : List Nat, CapCall.isSettled h ∉
        (authorize demoClient demoNode demoStorageUsed 1 "m" (some "")).calls) :=
  authorize_replay_check_before_settlement demoClient demoNode
    demoStorageUsed 1 "m" "" [] rfl rfl (by simp [demoStorageUsed])

/-- C7: a successful `GenerateInvoice` call appends exactly one fresh
invoice to the remote node and returns the payment request of exactly
that invoice; a second successful call appends a second, distinct
invoice and returns that second invoice's payment request — nothing is
cached or reused across calls. -/
theorem generateInvoice_fresh_charge (c : LNDclient) (n : LndNode)
    (a1 a2 : Int) (m1 m2 : String) (inv1 inv2 : Invoice)
    (hfail : n.addFails = false)
    (hinv1 : inv1 =
      { memo := m1, value := a1, settled := false,
        paymentRequest := n.newPaymentRequest n.invoices.length,
        rHash := n.newRHash n.invoices.length })
    (hinv2 : inv2 =
      { memo := m2, value := a2, settled := false,
        paymentRequest := n.newPaymentRequest (n.invoices.length + 1),
        rHash := n.newRHash (n.invoices.length + 1) }) :
    (GenerateInvoice c n a1 m1).err = none ∧
      (GenerateInvoice c n a1 m1).node.invoices = n.invoices ++ [inv1] ∧
      (GenerateInvoice c n a1 m1).paymentRequest = inv1.paymentRequest ∧
      (GenerateInvoice (GenerateInvoice c n a1 m1).client
          (GenerateInvoice c n a1 m1).node a2 m2).err = none ∧
      (GenerateInvoice (GenerateInvoice c n a1 m1).client
          (GenerateInvoice c n a1 m1).node a2 m2).node.invoices =
        n.invoices ++ [inv1, inv2] ∧
      (GenerateInvoice (GenerateInvoice c n a1 m1).client
          (GenerateInvoice c n a1 m1).node a2 m2).paymentRequest =
        inv2.paymentRequest := by
  subst hinv1 hinv2
  simp [GenerateInvoice, AddInvoice, hfail]

/-- C7 witness: two calls against the healthy empty `demoNode` create
the invoices at positions 0 and 1 and return their respective payment
requests. -/
theorem generateInvoice_fresh_charge_witness :
    (GenerateInvoice demoClient demoNode 1 "x").err = none ∧
      (GenerateInvoice demoClient demoNode 1 "x").node.invoices =
        demoNode.invoices ++
          [{ memo := "x", value := 1, settled := false,
             paymentRequest := "payment-request-0", rHash := [0] }] ∧
      (GenerateInvoice demoClient demoNode 1 "x").paymentRequest =
        Invoice.paymentRequest
          { memo := "x", value := 1, settled := false,
            paymentRequest := "payment-request-0", rHash := [0] } ∧
      (GenerateInvoice (GenerateInvoice demoClient demoNode 1 "x").client
          (GenerateInvoice demoClient demoNode 1 "x").node 2 "y").err = none ∧
      (GenerateInvoice (GenerateInvoice demoClient demoNode 1 "x").client
          (GenerateInvoice demoClient demoNode 1 "x").node 2 "y").node.invoices =
        demoNode.invoices ++
          [{ memo := "x", value := 1, settled := false,
             paymentRequest := "payment-request-0", rHash := [0] },
           { memo := "y", value := 2, settled := false,
             paymentRequest := "payment-request-1", rHash := [1] }] ∧
      (GenerateInvoice (GenerateInvoice demoClient demoNode 1 "x").client
          (GenerateInvoice demoClient demoNode 1 "x").node 2 "y").paymentRequest =
        Invoice.paymentRequest
          { memo := "y", value := 2, settled := false,
            paymentRequest := "payment-request-1", rHash := [1] } :=
  generateInvoice_fresh_charge demoClient demoNode 1 2 "x" "y"
    ({ memo := "x", value := 1, settled := false,
       paymentRequest := "payment-request-0", rHash := [0] })
    ({ memo := "y", value := 2, settled := false,
       paymentRequest := "payment-request-1", rHash := [1] })
    rfl rfl rfl

/-- C8: neither method records local state: for every input, the
client value (its fields `lndClient`, `ctx` and `conn`) is the same
after `GenerateInvoice` and after `CheckInvoice` as before. -/
theorem lndclient_methods_no_local_state (c : LNDclient) (n : LndNode)
    (amount : Int) (memo preimage : String) :
    (GenerateInvoice c n amount memo).client = c ∧
      (CheckInvoice c n preimage).client = c := by
  constructor
  · cases h : (AddInvoice n memo amount).2 <;> simp [GenerateInvoice, h]
  · cases hd : decodeBase64Std preimage with
    | none => simp [CheckInvoice, hd]
    | some bs =>
      cases hl : LookupInvoice n (sha256 bs) with
      | error e => simp [CheckInvoice, hd, hl]
      | ok inv => cases hs : inv.settled <;> simp [CheckInvoice, hd, hl, hs]

/-- C9: `assignDefaultValues` replaces exactly the empty fields with
the `DefaultLNDoptions` values and leaves every non-empty field
unchanged; applying it twice yields the same result as applying it
once. -/
theorem assignDefaultValues_defaults_idempotent (o : LNDoptions) :
    (assignDefaultValues o).Address =
        (if o.Address = "" then "localhost:10009" else o.Address) ∧
      (assignDefaultValues o).CertFile =
        (if o.CertFile = "" then "tls.cert" else o.CertFile) ∧
      (assignDefaultValues o).MacaroonFile =
        (if o.MacaroonFile = "" then "invoice.macaroon" else o.MacaroonFile) ∧
      assignDefaultValues (assignDefaultValues o) = assignDefaultValues o := by
  by_cases hA : o.Address = "" <;> by_cases hC : o.CertFile = "" <;>
    by_cases hM : o.MacaroonFile = "" <;>
    simp [assignDefaultValues, DefaultLNDoptions, hA, hC, hM]

end LnPaywall
